import Mathlib

/-!
Verification of the fileinfo walker (src/fileinfo.py).

This file gives a shallow embedding of the traversal-and-record engine of
`fileinfo.py`: the SHA-256 content digest (`FileInfo._sha256_hex`), the
kind-keyed digest policy (`FileInfo._sha256`), the record formatter
(`FileInfo._stat_str`), the uid/gid name cache (`FileInfo._get_xname`) and
the recursive walk (`FileInfo._show` / `FileInfo._show_all`).

Filesystem calls (`os.stat`, `os.path.exists`, `pathlib.Path.glob`,
`os.readlink`, `open`/`read`, `Path.owner`/`Path.group`) are modelled by
per-node data (`Meta`, `Tree`): each field holds the value the call would
return for that path at walk time, with `Except.error ()` standing for the
exception the corresponding Python call may raise (`PermissionError` for
`os.stat` and child enumeration, `FileNotFoundError` for `os.readlink`,
`OSError` for reading file bytes).  `datetime.datetime.fromtimestamp` is
platform/timezone dependent; the already-converted local calendar time is
carried in `Stat.mtime_dt` and only the `strftime` rendering is embedded.
-/

namespace FileInfo

/-- Python `str(x)` applied to an optional string: `str(None)` is the
four-character string `None`. -/
def pyStrOpt : Option String → String
  | none => "None"
  | some s => s

/-- `str(pathlib.Path(parent) / name)`: the child path produced by
`a_directory.glob('*')` for the entry `name` of directory `parent`. -/
def joinPath (parent name : String) : String := parent ++ "/" ++ name

/-! ## SHA-256 (model of `hashlib.sha256` as used by `_sha256_hex`) -/

/-- 2^32, the word modulus of SHA-256. -/
def M32 : Nat := 4294967296

/-- 32-bit modular addition. -/
def add32 (a b : Nat) : Nat := (a + b) % M32

/-- 32-bit right rotation (input assumed below 2^32). -/
def rotr32 (n x : Nat) : Nat := ((x >>> n) ||| (x <<< (32 - n))) % M32

/-- Three-way xor. -/
def xor3 (a b c : Nat) : Nat := (a ^^^ b) ^^^ c

/-- SHA-256 small sigma 0. -/
def ssig0 (x : Nat) : Nat := xor3 (rotr32 7 x) (rotr32 18 x) (x >>> 3)

/-- SHA-256 small sigma 1. -/
def ssig1 (x : Nat) : Nat := xor3 (rotr32 17 x) (rotr32 19 x) (x >>> 10)

/-- SHA-256 big sigma 0. -/
def bsig0 (x : Nat) : Nat := xor3 (rotr32 2 x) (rotr32 13 x) (rotr32 22 x)

/-- SHA-256 big sigma 1. -/
def bsig1 (x : Nat) : Nat := xor3 (rotr32 6 x) (rotr32 11 x) (rotr32 25 x)

/-- SHA-256 choose function (32-bit complement written as xor with 2^32-1). -/
def chf (x y z : Nat) : Nat := (x &&& y) ^^^ ((x ^^^ 4294967295) &&& z)

/-- SHA-256 majority function. -/
def majf (x y z : Nat) : Nat := ((x &&& y) ^^^ (x &&& z)) ^^^ (y &&& z)

/-- The 64 SHA-256 round constants. -/
def sha256K : List Nat :=
  [1116352408, 1899447441, 3049323471, 3921009573,
   961987163, 1508970993, 2453635748, 2870763221,
   3624381080, 310598401, 607225278, 1426881987,
   1925078388, 2162078206, 2614888103, 3248222580,
   3835390401, 4022224774, 264347078, 604807628,
   770255983, 1249150122, 1555081692, 1996064986,
   2554220882, 2821834349, 2952996808, 3210313671,
   3336571891, 3584528711, 113926993, 338241895,
   666307205, 773529912, 1294757372, 1396182291,
   1695183700, 1986661051, 2177026350, 2456956037,
   2730485921, 2820302411, 3259730800, 3345764771,
   3516065817, 3600352804, 4094571909, 275423344,
   430227734, 506948616, 659060556, 883997877,
   958139571, 1322822218, 1537002063, 1747873779,
   1955562222, 2024104815, 2227730452, 2361852424,
   2428436474, 2756734187, 3204031479, 3329325298]

/-- SHA-256 hash state: eight 32-bit words. -/
structure Hash8 where
  h0 : Nat
  h1 : Nat
  h2 : Nat
  h3 : Nat
  h4 : Nat
  h5 : Nat
  h6 : Nat
  h7 : Nat
deriving Repr, DecidableEq

/-- SHA-256 initial hash value. -/
def sha256H0 : Hash8 :=
  { h0 := 1779033703, h1 := 3144134277, h2 := 1013904242, h3 := 2773480762,
    h4 := 1359893119, h5 := 2600822924, h6 := 528734635, h7 := 1541459225 }

/-- SHA-256 padding: append 0x80, zero bytes to 56 mod 64, then the 64-bit
big-endian bit length. -/
def padBytes (msg : List Nat) : List Nat :=
  let L := msg.length
  let z := (119 - L % 64) % 64
  msg ++ [128] ++ List.replicate z 0
      ++ (List.range 8).map (fun i => 8 * L / 256 ^ (7 - i) % 256)

/-- Group bytes into big-endian 32-bit words. -/
def bytesToWords : List Nat → List Nat
  | b0 :: b1 :: b2 :: b3 :: rest =>
      (((b0 * 256 + b1) * 256 + b2) * 256 + b3) :: bytesToWords rest
  | _ => []

/-- Extend a 16-word block to the 64-word message schedule. -/
def extendW (block : List Nat) : List Nat :=
  (List.range 48).foldl
    (fun w _ =>
      let t := w.length
      w ++ [add32 (add32 (ssig1 (w.getD (t - 2) 0)) (w.getD (t - 7) 0))
              (add32 (ssig0 (w.getD (t - 15) 0)) (w.getD (t - 16) 0))])
    block

/-- One SHA-256 round. -/
def compressStep (w : List Nat) (st : Hash8) (t : Nat) : Hash8 :=
  let t1 := add32 (add32 (add32 st.h7 (bsig1 st.h4))
                    (add32 (chf st.h4 st.h5 st.h6) (sha256K.getD t 0)))
              (w.getD t 0)
  let t2 := add32 (bsig0 st.h0) (majf st.h0 st.h1 st.h2)
  { h0 := add32 t1 t2, h1 := st.h0, h2 := st.h1, h3 := st.h2,
    h4 := add32 st.h3 t1, h5 := st.h4, h6 := st.h5, h7 := st.h6 }

/-- Compress one 16-word block into the running hash state. -/
def compress (H : Hash8) (block : List Nat) : Hash8 :=
  let w := extendW block
  let st := (List.range 64).foldl (compressStep w) H
  { h0 := add32 H.h0 st.h0, h1 := add32 H.h1 st.h1, h2 := add32 H.h2 st.h2,
    h3 := add32 H.h3 st.h3, h4 := add32 H.h4 st.h4, h5 := add32 H.h5 st.h5,
    h6 := add32 H.h6 st.h6, h7 := add32 H.h7 st.h7 }

/-- Compress `nblocks` consecutive 16-word blocks of `ws`. -/
def sha256Blocks (H : Hash8) (ws : List Nat) : Nat → Hash8
  | 0 => H
  | n + 1 => sha256Blocks (compress H (ws.take 16)) (ws.drop 16) n

/-- SHA-256 of a byte string, as the eight-word hash state. -/
def sha256Hash (msg : List Nat) : Hash8 :=
  let ws := bytesToWords (padBytes msg)
  sha256Blocks sha256H0 ws (ws.length / 16)

/-- The sixteen lowercase hexadecimal digit characters, in value order. -/
def hexDigits : List Char := "0123456789abcdef".data

/-- Lowercase hexadecimal digit for a value below 16. -/
def hexChar (n : Nat) : Char := hexDigits.getD n 'f'

/-- Eight lowercase hex characters of a 32-bit word, most significant first. -/
def word8Hex (w : Nat) : List Char :=
  (List.range 8).map (fun i => hexChar (w / 16 ^ (7 - i) % 16))

/-- The 64 characters of the lowercase hexadecimal SHA-256 digest. -/
def sha256hexList (msg : List Nat) : List Char :=
  let H := sha256Hash msg
  word8Hex H.h0 ++ word8Hex H.h1 ++ word8Hex H.h2 ++ word8Hex H.h3 ++
  word8Hex H.h4 ++ word8Hex H.h5 ++ word8Hex H.h6 ++ word8Hex H.h7

/-- `hashlib.sha256(bytes).hexdigest()`: lowercase hex digest string. -/
def sha256hexStr (msg : List Nat) : String := String.mk (sha256hexList msg)

/-! ## Timestamp rendering (`_as_datetime_style`) -/

/-- A local calendar time, as produced by `datetime.datetime.fromtimestamp`
(the timestamp-to-local-time conversion is platform and timezone dependent
and is treated as environment data; only the rendering is embedded). -/
structure DateTime where
  year : Nat
  month : Nat
  day : Nat
  hour : Nat
  minute : Nat
  second : Nat
deriving Repr, DecidableEq

/-- Zero-pad the decimal rendering of `n` to width `w`, as `strftime`
does for its numeric directives. -/
def zfill (w n : Nat) : String :=
  String.mk (List.replicate (w - (toString n).length) '0') ++ toString n

/-- `FileInfo._as_datetime_style`: `strftime` with format
`%Y/%m/%d-%H:%M:%S` applied to the local modification time. -/
def as_datetime_style (d : DateTime) : String :=
  zfill 4 d.year ++ "/" ++ zfill 2 d.month ++ "/" ++ zfill 2 d.day ++ "-"
    ++ zfill 2 d.hour ++ ":" ++ zfill 2 d.minute ++ ":" ++ zfill 2 d.second

/-! ## Identity resolution cache (`_get_xname`) -/

/-- Observable outcome of the resolver thunk passed to `_get_xname`
(`lambda: FileInfo._get_owner(path)` or `lambda: FileInfo._get_group(path)`):
it returns a name, returns `None` (Windows group-less objects in
`_get_group`), or raises `KeyError` / `NotImplementedError`. -/
inductive PyLookup where
  | ok (s : Option String)
  | keyError
  | notImplemented
deriving Repr, DecidableEq

/-- `FileInfo._get_xname(xid, fun, xnames)`.  Returns the resolved name (a
Python value that may be `None`), the updated cache dictionary, and the
number of times the resolver thunk `fun` was invoked (0 on a cache hit,
1 on a miss).  A `None` result is not written into the cache. -/
def get_xname (xid : Nat) (f : PyLookup) (xnames : List (Nat × String)) :
    Option String × List (Nat × String) × Nat :=
  match List.lookup xid xnames with
  | some n => (some n, xnames, 0)
  | none =>
    let xname : Option String :=
      match f with
      | PyLookup.ok s => s
      | PyLookup.keyError => some "(missing)"
      | PyLookup.notImplemented => some "(not-implemented)"
    match xname with
    | some n => (some n, (xid, n) :: xnames, 1)
    | none => (none, xnames, 1)

/-- Run a sequence of `_get_xname` queries against one shared cache with a
per-id resolver behaviour, and count how many times the resolver thunk was
invoked for the id `xid`. -/
def xnameCalls (provider : Nat → PyLookup) (queries : List Nat)
    (xnames : List (Nat × String)) (xid : Nat) : Nat :=
  match queries with
  | [] => 0
  | q :: rest =>
    let r := get_xname q (provider q) xnames
    (if q = xid then r.2.2 else 0) + xnameCalls provider rest r.2.1 xid

/-! ## Digest policy (`_sha256`, `_sha256_hex`, `_get_hash`) -/

/-- `FileInfo._sha256_hex(file)`: SHA-256 hex digest of the file bytes read
in one pass, or the `(unreadable)` sentinel when `open`/`read` raises
`OSError`. -/
def sha256_hex : Except Unit (List Nat) → String
  | Except.ok bs => sha256hexStr bs
  | Except.error _ => "(unreadable)"

/-- `mode[0]`: the leading file-kind character of the rendered permission
string (`stat.filemode` output is always ten characters, so the default is
never used on real input). -/
def modeKind (mode : String) : Char := mode.data.headD '?'

/-- The `a_dict` table of `FileInfo._sha256`: fixed descriptive digest
tokens keyed on the mode-prefix character. -/
def kindTokens : List (Char × String) :=
  [('d', "directory"), ('D', "Door(Solaris)"), ('b', "block-special"),
   ('c', "character-special"), ('C', "Contiguous-data"), ('l', "symbolic-link"),
   ('M', "Migrated"), ('n', "network-special"), ('s', "socket"),
   ('P', "FIFO"), ('p', "FIFO"), ('?', "some-other-file-type")]

/-- The digest returned by `FileInfo._sha256(file, mode)`: a real SHA-256
digest for regular files (mode prefix `-`), the fixed token from `a_dict`
for the other recognized kinds, and an `Unknown-file-kind` token naming the
prefix character otherwise. -/
def sha256_digest (mode : String) (content : Except Unit (List Nat)) : String :=
  let kind := modeKind mode
  if kind = '-' then sha256_hex content
  else
    match List.lookup kind kindTokens with
    | some t => t
    | none => "Unknown-file-kind(mode-prefix=\x27" ++ String.mk [kind] ++ "\x27)"

/-- The per-kind counter update done at the top of `FileInfo._sha256` when
`self.to_count` is set (`self.counters[kind] += 1`, starting at 1). -/
def bumpCounter (k : Char) (cs : List (Char × Nat)) : List (Char × Nat) :=
  match List.lookup k cs with
  | some n => cs.map (fun p => if p.1 = k then (p.1, n + 1) else p)
  | none => cs ++ [(k, 1)]

/-- `FileInfo._sha256` including its counter side effect: returns the digest
text and the updated counters dictionary. -/
def fi_sha256 (content : Except Unit (List Nat)) (mode : String)
    (to_count : Bool) (counters : List (Char × Nat)) :
    String × List (Char × Nat) :=
  (sha256_digest mode content,
   if to_count then bumpCounter (modeKind mode) counters else counters)

/-- `FileInfo._get_hash(file, mode)`: the digest prefixed with `SHA256:`. -/
def get_hash (content : Except Unit (List Nat)) (mode : String)
    (to_count : Bool) (counters : List (Char × Nat)) :
    String × List (Char × Nat) :=
  let r := fi_sha256 content mode to_count counters
  ("SHA256:" ++ r.1, r.2)

/-! ## Filesystem entry model -/

/-- Result of `os.stat(file, follow_symlinks=False)` on an existing path:
the fields `_stat_str` consumes.  `filemode` is the rendered
`stat.filemode(st_mode)` string; `mtime_dt` is
`datetime.datetime.fromtimestamp(st_mtime)` (local calendar time). -/
structure Stat where
  filemode : String
  nlink : Nat
  uid : Nat
  gid : Nat
  size : Nat
  mtime_dt : DateTime
deriving Repr, DecidableEq

/-- Per-path filesystem answers at walk time.  `exists_` is
`os.path.exists` (follows symlinks, so a dangling link reads as absent);
`statr` is `os.stat(..., follow_symlinks=False)` with `Except.error ()` for
`PermissionError`; `isdir`/`islink` are `os.path.isdir`/`os.path.islink`;
`readlink` is `os.readlink` with `Except.error ()` for `FileNotFoundError`;
`content` is the one-pass byte read with `Except.error ()` for `OSError`;
`ownerLookup`/`groupLookup` are the observable outcomes of the
`_get_owner`/`_get_group` thunks for this path. -/
structure Meta where
  exists_ : Bool
  statr : Except Unit Stat
  isdir : Bool
  islink : Bool
  readlink : Except Unit String
  content : Except Unit (List Nat)
  ownerLookup : PyLookup
  groupLookup : PyLookup
deriving Repr

/-- A directory subtree: the node's own filesystem answers, whether
enumerating its children (`a_directory.glob('*')`) succeeds (`false` models
`PermissionError`), and the children in filesystem enumeration order as
(base name, subtree) pairs. -/
inductive Tree where
  | node (m : Meta) (childrenOk : Bool) (children : List (String × Tree))

/-- The two name caches `names = {'unames': {}, 'gnames': {}}` shared
across the whole run. -/
structure Names where
  unames : List (Nat × String)
  gnames : List (Nat × String)
deriving Repr

/-- Walk-visible state: the data output stream (`self.my_out`, written by
`_put_fileinfo`), the stderr side channel (written by `_warn`), the shared
name caches, the per-kind counters and the `self.to_count` flag. -/
structure WalkState where
  out : List String
  warn : List String
  names : Names
  counters : List (Char × Nat)
  to_count : Bool
deriving Repr

/-- `FileInfo._put_fileinfo`: print one line to the data output stream. -/
def put_fileinfo (line : String) (s : WalkState) : WalkState :=
  { s with out := s.out ++ [line] }

/-- `FileInfo._warn`: print a `WARNING:`-prefixed line to stderr. -/
def warn_ (msg : String) (s : WalkState) : WalkState :=
  { s with warn := s.warn ++ ["WARNING: " ++ msg] }

/-! ## Record formatting (`_stat_str`, `_get_link_symbol`) -/

/-- `FileInfo._get_link_symbol(path)`: the ` -> target` suffix for a
symbolic link, ` -> (No such file or directory)` when `os.readlink` raises
`FileNotFoundError`, and the empty string for non-links. -/
def get_link_symbol (m : Meta) : String :=
  if m.islink = true then
    match m.readlink with
    | Except.ok t => " -> " ++ t
    | Except.error _ => " -> (No such file or directory)"
  else ""

/-- The `dic` dictionary built inside `FileInfo._stat_str`. -/
structure StatDict where
  mode : String
  nlink : Nat
  uid : Nat
  path : String
  uname : Option String
  gid : Nat
  gname : Option String
  size : Nat
  hash : String
  mtime : String
  link : String
deriving Repr

/-- The format string of `_stat_str` applied to `dic` (an f-string renders
the Python value `None` as the text `None`). -/
def formatStatDict (d : StatDict) : String :=
  d.mode ++ " " ++ toString d.nlink ++ " " ++ pyStrOpt d.uname ++ "("
    ++ toString d.uid ++ "):" ++ pyStrOpt d.gname ++ "(" ++ toString d.gid
    ++ ") " ++ toString d.size ++ " " ++ d.hash ++ " " ++ d.mtime ++ " "
    ++ d.path ++ d.link

/-- `FileInfo._stat_str(file, names)`: the missing-path line when the path
does not exist, otherwise the formatted record built from the
non-dereferencing stat; `Except.error ()` models the `PermissionError`
`os.stat` may raise, which propagates to the caller. -/
def stat_str (file : String) (m : Meta) (s : WalkState) :
    Except Unit (String × WalkState) :=
  if m.exists_ = false then
    Except.ok (file ++ ": No such file or directory.", s)
  else
    match m.statr with
    | Except.error _ => Except.error ()
    | Except.ok st =>
      let mode := st.filemode
      let ur := get_xname st.uid m.ownerLookup s.names.unames
      let gr := get_xname st.gid m.groupLookup s.names.gnames
      let hr := get_hash m.content mode s.to_count s.counters
      let d : StatDict :=
        { mode := mode, nlink := st.nlink, uid := st.uid, path := file,
          uname := ur.1, gid := st.gid, gname := gr.1, size := st.size,
          hash := hr.1, mtime := as_datetime_style st.mtime_dt,
          link := get_link_symbol m }
      Except.ok (formatStatDict d,
        { s with names := { unames := ur.2.1, gnames := gr.2.1 },
                 counters := hr.2 })

/-! ## Recursive walk (`_show`, `_dir_stat_invisibly`, `_show_all`) -/

/-- Python `str.split(';')` on the character list: splitting on every
semicolon, keeping empty groups, with `[""]` for the empty string. -/
def splitSemi : List Char → List (List Char)
  | [] => [[]]
  | c :: rest =>
    match splitSemi rest with
    | [] => [[]]
    | g :: gs => if c = ';' then [] :: g :: gs else (c :: g) :: gs

/-- Python `s.split(';')` for a string. -/
def pySplitSemicolons (s : String) : List String :=
  (splitSemi s.data).map String.mk

/-- The `excludes_list` computed in `_show`:
`str(self.args['excludes']).split(';')`.  When the `-x` option was not
supplied the argparse value is `None`, which stringifies to `"None"`. -/
def excludesListOf (ex : Option String) : List String :=
  pySplitSemicolons (pyStrOpt ex)

mutual

/-- `FileInfo._show(file, names)` on the subtree `t` rooted at path `file`:
emit the record line, then (when recursive) walk the children of a
non-symlink directory, skipping excluded names and containing
`PermissionError` per child; a `PermissionError` from this node's own
`os.stat` propagates as `Except.error ()`. -/
def show_ (recursive : Bool) (ex : Option String) (file : String)
    (t : Tree) (s : WalkState) : Except Unit WalkState :=
  match t with
  | Tree.node m childrenOk children =>
    match stat_str file m s with
    | Except.error e => Except.error e
    | Except.ok ls =>
      let s2 := put_fileinfo ls.1 ls.2
      if recursive = false then Except.ok s2
      else if m.isdir = false then Except.ok s2
      else if m.islink = true then Except.ok s2
      else if childrenOk = false then
        Except.ok (put_fileinfo ("(Skipping children of " ++ file ++ ")") s2)
      else
        Except.ok (showChildren recursive ex (excludesListOf ex) file children s2)
termination_by sizeOf t

/-- The `for child in children` loop of `_show`: warn and skip excluded
names, recurse into the others, and on a child `PermissionError` emit the
`(Skipping <child>)` line and continue with the remaining siblings. -/
def showChildren (recursive : Bool) (ex : Option String)
    (exList : List String) (parent : String)
    (cs : List (String × Tree)) (s : WalkState) : WalkState :=
  match cs with
  | [] => s
  | (name, ct) :: rest =>
    let childPath := joinPath parent name
    let s' :=
      if exList.contains name = true then
        warn_ ("Skiping sub-directory " ++ childPath) s
      else
        match show_ recursive ex childPath ct s with
        | Except.ok s2 => s2
        | Except.error _ => put_fileinfo ("(Skipping " ++ childPath ++ ")") s
    showChildren recursive ex exList parent rest s'
termination_by sizeOf cs

end

/-- `os.path.dirname` for POSIX paths: everything up to the last slash,
with trailing slashes stripped unless the head is all slashes. -/
def dirname (p : String) : String :=
  let cs := p.data
  match ((cs.enum.filter (fun q => q.2 = '/')).map (fun q => q.1)).getLast? with
  | none => ""
  | some k =>
    let head := cs.take (k + 1)
    if head.all (fun c => c = '/') then String.mk head
    else String.mk ((head.reverse.dropWhile (fun c => c = '/')).reverse)

/-- `FileInfo._dir_stat_invisibly(file, names)`: stat the parent directory
of `file` (or `.` when the path has no directory part), keeping only the
cache side effects; `pm` holds the filesystem answers for that parent. -/
def dir_stat_invisibly (file : String) (pm : Meta) (s : WalkState) :
    Except Unit WalkState :=
  let d := dirname file
  let target := if d = "" then "." else d
  match stat_str target pm s with
  | Except.ok r => Except.ok r.2
  | Except.error e => Except.error e

/-- One top-level input path: the path itself, the filesystem answers for
its parent directory (used by the invisible priming stat), and its
subtree. -/
structure RootSpec where
  path : String
  parentMeta : Meta
  tree : Tree

/-- `FileInfo._show_all(files, out)`: for each root, prime the caches on
the parent directory with `to_count` off, then show the root and (when
recursive) its subtree. -/
def show_all (recursive : Bool) (ex : Option String)
    (roots : List RootSpec) (s : WalkState) : Except Unit WalkState :=
  match roots with
  | [] => Except.ok s
  | r :: rest =>
    match dir_stat_invisibly r.path r.parentMeta { s with to_count := false } with
    | Except.error e => Except.error e
    | Except.ok s1 =>
      match show_ recursive ex r.path r.tree { s1 with to_count := true } with
      | Except.error e => Except.error e
      | Except.ok s2 => show_all recursive ex rest s2

/-! ## Concrete sample entries (used to instantiate the theorems) -/

/-- A sample local modification time. -/
def sampleDT : DateTime := ⟨2022, 9, 20, 12, 34, 56⟩

/-- Stat answers for a small regular file. -/
def sampleStatFile : Stat :=
  { filemode := "-rw-r--r--", nlink := 1, uid := 1000, gid := 1000, size := 2,
    mtime_dt := sampleDT }

/-- Stat answers for a directory. -/
def sampleStatDir : Stat :=
  { filemode := "drwxr-xr-x", nlink := 2, uid := 0, gid := 0, size := 4096,
    mtime_dt := sampleDT }

/-- Stat answers for a symbolic link. -/
def sampleStatLink : Stat :=
  { filemode := "lrwxrwxrwx", nlink := 1, uid := 0, gid := 0, size := 6,
    mtime_dt := sampleDT }

/-- A readable two-byte regular file with content `hi`. -/
def sampleMetaFile : Meta :=
  { exists_ := true, statr := Except.ok sampleStatFile, isdir := false,
    islink := false, readlink := Except.error (), content := Except.ok [104, 105],
    ownerLookup := PyLookup.ok (some "user"),
    groupLookup := PyLookup.ok (some "user") }

/-- A readable directory. -/
def sampleMetaDir : Meta :=
  { exists_ := true, statr := Except.ok sampleStatDir, isdir := true,
    islink := false, readlink := Except.error (), content := Except.error (),
    ownerLookup := PyLookup.ok (some "root"),
    groupLookup := PyLookup.ok (some "root") }

/-- A symbolic link whose target is a directory. -/
def sampleMetaLink : Meta :=
  { exists_ := true, statr := Except.ok sampleStatLink, isdir := true,
    islink := true, readlink := Except.ok "/tmp/d", content := Except.error (),
    ownerLookup := PyLookup.ok (some "root"),
    groupLookup := PyLookup.ok (some "root") }

/-- A path that does not exist at stat time. -/
def sampleMetaMissing : Meta :=
  { exists_ := false, statr := Except.error (), isdir := false, islink := false,
    readlink := Except.error (), content := Except.error (),
    ownerLookup := PyLookup.keyError, groupLookup := PyLookup.keyError }

/-- An existing entry whose `os.stat` raises `PermissionError`. -/
def sampleMetaDenied : Meta :=
  { exists_ := true, statr := Except.error (), isdir := true, islink := false,
    readlink := Except.error (), content := Except.error (),
    ownerLookup := PyLookup.keyError, groupLookup := PyLookup.keyError }

/-- The initial walk state: empty streams, empty caches. -/
def sampleState : WalkState :=
  { out := [], warn := [], names := { unames := [], gnames := [] },
    counters := [], to_count := true }

/-! ## Unfolding lemmas for the walk -/

/-- `_stat_str` on a missing path returns the literal line and leaves the
state untouched. -/
lemma stat_str_ok_missing (file : String) (m : Meta) (s : WalkState)
    (h : m.exists_ = false) :
    stat_str file m s = Except.ok (file ++ ": No such file or directory.", s) := by
  simp [stat_str, h]

/-- `_stat_str` succeeds whenever the path exists and `os.stat` does not
raise. -/
lemma stat_str_ok_stat (file : String) (m : Meta) (s : WalkState) (st : Stat)
    (h1 : m.exists_ = true) (h2 : m.statr = Except.ok st) :
    ∃ r, stat_str file m s = Except.ok r := by
  simp [stat_str, h1, h2]

/-- `_stat_str` succeeds on any path that is missing or whose `os.stat`
returns normally. -/
lemma stat_str_total (file : String) (m : Meta) (s : WalkState)
    (h : m.exists_ = false ∨ ∃ st, m.statr = Except.ok st) :
    ∃ r, stat_str file m s = Except.ok r := by
  rcases h with h | ⟨st, h⟩
  · exact ⟨_, stat_str_ok_missing file m s h⟩
  · by_cases he : m.exists_ = false
    · exact ⟨_, stat_str_ok_missing file m s he⟩
    · have he' : m.exists_ = true := by simpa using he
      exact stat_str_ok_stat file m s st he' h

/-- `_stat_str` propagates the `PermissionError` of `os.stat` on an
existing path. -/
lemma stat_str_raises (file : String) (m : Meta) (s : WalkState)
    (h1 : m.exists_ = true) (h2 : m.statr = Except.error ()) :
    stat_str file m s = Except.error () := by
  simp [stat_str, h1, h2]

/-- `_stat_str` never writes to the output streams and never toggles
`to_count`: it only updates the name caches and the counters. -/
lemma stat_str_keeps (file : String) (m : Meta) (s : WalkState)
    (r : String × WalkState) (h : stat_str file m s = Except.ok r) :
    r.2.out = s.out ∧ r.2.warn = s.warn ∧ r.2.to_count = s.to_count := by
  by_cases he : m.exists_ = false
  · simp [stat_str, he] at h
    subst h
    simp
  · simp [stat_str, he] at h
    cases hst : m.statr with
    | error e => simp [hst] at h
    | ok st =>
      simp [hst] at h
      subst h
      simp

/-- `_show` propagates a `PermissionError` raised by the node's own
`os.stat` before emitting anything. -/
lemma show_error (recursive : Bool) (ex : Option String) (file : String)
    (m : Meta) (cok : Bool) (cs : List (String × Tree)) (s : WalkState)
    (h1 : m.exists_ = true) (h2 : m.statr = Except.error ()) :
    show_ recursive ex file (Tree.node m cok cs) s = Except.error () := by
  rw [show_]
  rw [stat_str_raises file m s h1 h2]

/-- `_show` on a missing, non-directory path emits exactly the
missing-path line. -/
lemma show_missing (recursive : Bool) (ex : Option String) (file : String)
    (m : Meta) (cok : Bool) (cs : List (String × Tree)) (s : WalkState)
    (h1 : m.exists_ = false) (h2 : m.isdir = false) :
    show_ recursive ex file (Tree.node m cok cs) s =
      Except.ok (put_fileinfo (file ++ ": No such file or directory.") s) := by
  rw [show_]
  rw [stat_str_ok_missing file m s h1]
  cases recursive <;> simp [h2]

/-- A recursive `_show` on a symbolic link to a directory stops right after
the link's own record line: the target directory is never entered. -/
lemma show_symlink_dir (ex : Option String) (file : String)
    (m : Meta) (cok : Bool) (cs : List (String × Tree)) (s : WalkState)
    (st : Stat) (h1 : m.exists_ = true) (h2 : m.statr = Except.ok st)
    (h3 : m.isdir = true) (h4 : m.islink = true) :
    show_ true ex file (Tree.node m cok cs) s =
      (stat_str file m s).map (fun r => put_fileinfo r.1 r.2) := by
  obtain ⟨r, hr⟩ := stat_str_ok_stat file m s st h1 h2
  rw [show_, hr]
  simp [h3, h4, Except.map]

/-- A recursive `_show` on a directory whose child enumeration raises
`PermissionError` emits the record line followed by the single
`(Skipping children of <dir>)` line. -/
lemma show_children_denied (ex : Option String) (file : String)
    (m : Meta) (cs : List (String × Tree)) (s : WalkState)
    (st : Stat) (h1 : m.exists_ = true) (h2 : m.statr = Except.ok st)
    (h3 : m.isdir = true) (h4 : m.islink = false) :
    show_ true ex file (Tree.node m false cs) s =
      (stat_str file m s).map (fun r =>
        put_fileinfo ("(Skipping children of " ++ file ++ ")")
          (put_fileinfo r.1 r.2)) := by
  obtain ⟨r, hr⟩ := stat_str_ok_stat file m s st h1 h2
  rw [show_, hr]
  simp [h3, h4, Except.map]

/-- A recursive `_show` on a readable non-link directory emits the record
line and then runs the child loop. -/
lemma show_dir_enum (ex : Option String) (file : String)
    (m : Meta) (cs : List (String × Tree)) (s : WalkState)
    (st : Stat) (h1 : m.exists_ = true) (h2 : m.statr = Except.ok st)
    (h3 : m.isdir = true) (h4 : m.islink = false) :
    show_ true ex file (Tree.node m true cs) s =
      (stat_str file m s).map (fun r =>
        showChildren true ex (excludesListOf ex) file cs
          (put_fileinfo r.1 r.2)) := by
  obtain ⟨r, hr⟩ := stat_str_ok_stat file m s st h1 h2
  rw [show_, hr]
  simp [h3, h4, Except.map]

/-- The child loop on an excluded name: warn on the side channel and move
to the remaining siblings without visiting the child. -/
lemma showChildren_excluded (recursive : Bool) (ex : Option String)
    (exList : List String) (parent name : String) (ct : Tree)
    (rest : List (String × Tree)) (s : WalkState)
    (h : exList.contains name = true) :
    showChildren recursive ex exList parent ((name, ct) :: rest) s =
      showChildren recursive ex exList parent rest
        (warn_ ("Skiping sub-directory " ++ joinPath parent name) s) := by
  have h' : name ∈ exList := by simpa using h
  rw [showChildren]
  simp [h']

/-- The child loop on a non-excluded child whose `os.stat` raises
`PermissionError`: emit `(Skipping <child>)` and continue with the
remaining siblings. -/
lemma showChildren_badchild (recursive : Bool) (ex : Option String)
    (exList : List String) (parent name : String)
    (mb : Meta) (cb : Bool) (csb : List (String × Tree))
    (rest : List (String × Tree)) (s : WalkState)
    (hn : exList.contains name = false)
    (hb1 : mb.exists_ = true) (hb2 : mb.statr = Except.error ()) :
    showChildren recursive ex exList parent
        ((name, Tree.node mb cb csb) :: rest) s =
      showChildren recursive ex exList parent rest
        (put_fileinfo ("(Skipping " ++ joinPath parent name ++ ")") s) := by
  have hn' : ¬ name ∈ exList := by simpa using hn
  rw [showChildren]
  simp [hn', show_error recursive ex (joinPath parent name) mb cb csb s hb1 hb2]

/-! ## Digest shape lemmas -/

/-- Every `hexChar` value is one of the sixteen lowercase hex digits. -/
lemma hexChar_mem (n : Nat) : hexChar n ∈ hexDigits := by
  unfold hexChar List.getD
  cases h : hexDigits.get? n with
  | none =>
    simp
    decide
  | some c =>
    simp
    exact List.get?_mem h

/-- Every character of a word rendering is a lowercase hex digit. -/
lemma mem_word8Hex (c : Char) (w : Nat) (h : c ∈ word8Hex w) : c ∈ hexDigits := by
  simp [word8Hex] at h
  obtain ⟨i, -, rfl⟩ := h
  exact hexChar_mem _

/-- The hex digest is always 64 characters long. -/
lemma sha256hexStr_len (bs : List Nat) : (sha256hexStr bs).length = 64 := by
  simp [sha256hexStr, String.length, sha256hexList, word8Hex]

/-- The hex digest uses only lowercase hexadecimal characters. -/
lemma sha256hexStr_lower (bs : List Nat) :
    ∀ c ∈ (sha256hexStr bs).data, c ∈ hexDigits := by
  intro c hc
  simp only [sha256hexStr, sha256hexList, List.mem_append] at hc
  rcases hc with ((((((hc | hc) | hc) | hc) | hc) | hc) | hc) | hc <;>
    exact mem_word8Hex _ _ hc

/-! ## Identity cache lemmas -/

/-- A `_get_xname` call for one id never changes what the cache answers
for a different id. -/
lemma get_xname_preserves_lookup (xid q : Nat) (f : PyLookup)
    (c : List (Nat × String)) (hne : xid ≠ q) :
    List.lookup xid (get_xname q f c).2.1 = List.lookup xid c := by
  have hb : (xid == q) = false := beq_eq_false_iff_ne.mpr hne
  unfold get_xname
  cases hl : List.lookup q c with
  | some n => rfl
  | none =>
    cases f with
    | ok os =>
      cases os with
      | none => rfl
      | some n => simp [List.lookup, hb]
    | keyError => simp [List.lookup, hb]
    | notImplemented => simp [List.lookup, hb]

/-- Once an id is in the cache, a whole run of further queries never
invokes the resolver thunk for it again. -/
lemma xnameCalls_cached (provider : Nat → PyLookup) (queries : List Nat)
    (xnames : List (Nat × String)) (xid : Nat)
    (h : (List.lookup xid xnames).isSome = true) :
    xnameCalls provider queries xnames xid = 0 := by
  induction queries generalizing xnames with
  | nil => simp [xnameCalls]
  | cons q rest ih =>
    obtain ⟨n, hn⟩ := Option.isSome_iff_exists.mp h
    by_cases hq : q = xid
    · subst hq
      simp [xnameCalls, get_xname, hn]
      exact ih xnames h
    · unfold xnameCalls
      simp [hq]
      apply ih
      rw [get_xname_preserves_lookup xid q (provider q) xnames (fun he => hq he.symm)]
      exact h

/-- When the resolver for an id never yields the Python value `None`, the
thunk runs at most once for that id over any run of queries. -/
lemma xnameCalls_at_most_once (provider : Nat → PyLookup) (queries : List Nat)
    (xnames : List (Nat × String)) (xid : Nat)
    (h : provider xid ≠ PyLookup.ok none) :
    xnameCalls provider queries xnames xid ≤ 1 := by
  induction queries generalizing xnames with
  | nil => simp [xnameCalls]
  | cons q rest ih =>
    unfold xnameCalls
    by_cases hq : q = xid
    · subst hq
      cases hl : List.lookup q xnames with
      | some n =>
        simp [get_xname, hl]
        exact ih xnames
      | none =>
        have hins : ∀ nm : String,
            xnameCalls provider rest ((q, nm) :: xnames) q = 0 := by
          intro nm
          apply xnameCalls_cached
          simp [List.lookup]
        cases hp : provider q with
        | ok os =>
          cases os with
          | none => exact absurd hp h
          | some n => simp [get_xname, hl, hp, hins n]
        | keyError => simp [get_xname, hl, hp, hins "(missing)"]
        | notImplemented => simp [get_xname, hl, hp, hins "(not-implemented)"]
    · simp [hq]
      exact ih _

/-! ## Claims -/

/-- Claim C1: for every existing entry the walk visits, `_stat_str` emits a
single record of the exact form
`<mode> <nlink> <owner>(<uid>):<group>(<gid>) <size> SHA256:<digest>
<YYYY/MM/DD-HH:MM:SS> <path>`, where the owner and group names come from
the cached resolvers, the timestamp is rendered zero-padded as
`YYYY/MM/DD-HH:MM:SS`, and the ` -> <target>` suffix is present exactly
when the entry is a symbolic link (with
` -> (No such file or directory)` when the link target cannot be read). -/
theorem fileinfo_C1 (file : String) (m : Meta) (s : WalkState) (st : Stat)
    (tgt : String) (h1 : m.exists_ = true) (h2 : m.statr = Except.ok st) :
    (stat_str file m s).map Prod.fst = Except.ok
      (st.filemode ++ " " ++ toString st.nlink ++ " "
        ++ pyStrOpt (get_xname st.uid m.ownerLookup s.names.unames).1
        ++ "(" ++ toString st.uid ++ "):"
        ++ pyStrOpt (get_xname st.gid m.groupLookup s.names.gnames).1
        ++ "(" ++ toString st.gid ++ ") " ++ toString st.size ++ " "
        ++ ("SHA256:" ++ sha256_digest st.filemode m.content) ++ " "
        ++ as_datetime_style st.mtime_dt ++ " " ++ file
        ++ get_link_symbol m)
    ∧ (m.islink = true → m.readlink = Except.ok tgt →
        get_link_symbol m = " -> " ++ tgt)
    ∧ (m.islink = true → m.readlink = Except.error () →
        get_link_symbol m = " -> (No such file or directory)")
    ∧ (m.islink = false → get_link_symbol m = "")
    ∧ as_datetime_style st.mtime_dt =
        zfill 4 st.mtime_dt.year ++ "/" ++ zfill 2 st.mtime_dt.month ++ "/"
          ++ zfill 2 st.mtime_dt.day ++ "-" ++ zfill 2 st.mtime_dt.hour ++ ":"
          ++ zfill 2 st.mtime_dt.minute ++ ":" ++ zfill 2 st.mtime_dt.second := by
  refine ⟨?_, ?_, ?_, ?_, rfl⟩
  · simp [stat_str, h1, h2, formatStatDict, get_hash, fi_sha256, Except.map]
  · intro hl hr
    simp [get_link_symbol, hl, hr]
  · intro hl hr
    simp [get_link_symbol, hl, hr]
  · intro hl
    simp [get_link_symbol, hl]

set_option maxRecDepth 40000 in
/-- Witness for C1: the record line of a concrete two-byte file `hi`,
evaluated down to its literal text, including the real SHA-256 digest. -/
theorem fileinfo_C1_witness :
    sampleMetaFile.exists_ = true
    ∧ (stat_str "/tmp/hi.txt" sampleMetaFile sampleState).map Prod.fst =
      Except.ok "-rw-r--r-- 1 user(1000):user(1000) 2 SHA256:8f434346648f6b96df89dda901c5176b10a6d83961dd3c1ac88b59b2dc327aa4 2022/09/20-12:34:56 /tmp/hi.txt" := by
  constructor
  · rfl
  · have h := (fileinfo_C1 "/tmp/hi.txt" sampleMetaFile sampleState sampleStatFile
      "t" rfl rfl).1
    rw [h]
    simp only [Except.ok.injEq]
    decide

/-- Claim C2: for regular entries (mode prefix `-`) the digest is the
lowercase hexadecimal SHA-256 of the file content read in one pass — equal
content gives an equal digest regardless of the rest of the mode string —
an `OSError` while reading yields the `(unreadable)` sentinel, and
`_stat_str` still returns a record (the walk does not abort). -/
theorem fileinfo_C2 (mode mode2 : String) (bs : List Nat) (file : String)
    (m : Meta) (s : WalkState) (st : Stat)
    (h1 : modeKind mode = '-') (h2 : modeKind mode2 = '-')
    (hm1 : m.exists_ = true) (hm2 : m.statr = Except.ok st) :
    sha256_digest mode (Except.ok bs) = sha256hexStr bs
    ∧ sha256_digest mode2 (Except.ok bs) = sha256_digest mode (Except.ok bs)
    ∧ sha256_digest mode (Except.error ()) = "(unreadable)"
    ∧ (sha256hexStr bs).length = 64
    ∧ (∀ c ∈ (sha256hexStr bs).data, c ∈ hexDigits)
    ∧ (∃ r, stat_str file m s = Except.ok r) := by
  refine ⟨?_, ?_, ?_, sha256hexStr_len bs, sha256hexStr_lower bs,
    stat_str_ok_stat file m s st hm1 hm2⟩
  · simp [sha256_digest, h1, sha256_hex]
  · simp [sha256_digest, h1, h2]
  · simp [sha256_digest, h1, sha256_hex]

set_option maxRecDepth 40000 in
/-- Witness for C2: the digest of the bytes of `hi` evaluates to the
well-known SHA-256 value, and an unreadable file gives the sentinel. -/
theorem fileinfo_C2_witness :
    modeKind "-rw-r--r--" = '-'
    ∧ sha256_digest "-rw-r--r--" (Except.ok [104, 105]) = sha256hexStr [104, 105]
    ∧ sha256hexStr [104, 105] =
        "8f434346648f6b96df89dda901c5176b10a6d83961dd3c1ac88b59b2dc327aa4"
    ∧ sha256_digest "-rw-r--r--" (Except.error ()) = "(unreadable)" := by
  have h := fileinfo_C2 "-rw-r--r--" "-r-xr-xr-x" [104, 105] "/tmp/hi.txt"
    sampleMetaFile sampleState sampleStatFile rfl rfl rfl rfl
  exact ⟨rfl, h.1, by decide, h.2.2.1⟩

/-- Claim C3: for each recognized non-regular kind (directory, symbolic
link, block special, character special, socket, FIFO, door, contiguous
data, migrated, network special) the digest is the fixed descriptive token
for that kind, independent of the file content; and any mode-prefix
character outside the recognized set yields the `Unknown-file-kind` token
naming that character, with no exception. -/
theorem fileinfo_C3 (k : Char) (rest : List Char) (c : Except Unit (List Nat))
    (hk : (['-', 'd', 'D', 'b', 'c', 'C', 'l', 'M', 'n', 's', 'P', 'p', '?'] :
      List Char).contains k = false) :
    sha256_digest (String.mk ('d' :: rest)) c = "directory"
    ∧ sha256_digest (String.mk ('l' :: rest)) c = "symbolic-link"
    ∧ sha256_digest (String.mk ('b' :: rest)) c = "block-special"
    ∧ sha256_digest (String.mk ('c' :: rest)) c = "character-special"
    ∧ sha256_digest (String.mk ('s' :: rest)) c = "socket"
    ∧ sha256_digest (String.mk ('p' :: rest)) c = "FIFO"
    ∧ sha256_digest (String.mk ('P' :: rest)) c = "FIFO"
    ∧ sha256_digest (String.mk ('D' :: rest)) c = "Door(Solaris)"
    ∧ sha256_digest (String.mk ('C' :: rest)) c = "Contiguous-data"
    ∧ sha256_digest (String.mk ('M' :: rest)) c = "Migrated"
    ∧ sha256_digest (String.mk ('n' :: rest)) c = "network-special"
    ∧ sha256_digest (String.mk (k :: rest)) c =
        "Unknown-file-kind(mode-prefix=\x27" ++ String.mk [k] ++ "\x27)" := by
  simp only [List.contains, List.elem_eq_mem, decide_eq_false_iff_not,
    List.mem_cons, List.mem_singleton, List.not_mem_nil] at hk
  push_neg at hk
  obtain ⟨k1, k2, k3, k4, k5, k6, k7, k8, k9, k10, k11, k12, k13⟩ := hk
  refine ⟨rfl, rfl, rfl, rfl, rfl, rfl, rfl, rfl, rfl, rfl, rfl, ?_⟩
  have e2 : (k == 'd') = false := beq_eq_false_iff_ne.mpr k2
  have e3 : (k == 'D') = false := beq_eq_false_iff_ne.mpr k3
  have e4 : (k == 'b') = false := beq_eq_false_iff_ne.mpr k4
  have e5 : (k == 'c') = false := beq_eq_false_iff_ne.mpr k5
  have e6 : (k == 'C') = false := beq_eq_false_iff_ne.mpr k6
  have e7 : (k == 'l') = false := beq_eq_false_iff_ne.mpr k7
  have e8 : (k == 'M') = false := beq_eq_false_iff_ne.mpr k8
  have e9 : (k == 'n') = false := beq_eq_false_iff_ne.mpr k9
  have e10 : (k == 's') = false := beq_eq_false_iff_ne.mpr k10
  have e11 : (k == 'P') = false := beq_eq_false_iff_ne.mpr k11
  have e12 : (k == 'p') = false := beq_eq_false_iff_ne.mpr k12
  have e13 : (k == '?') = false := beq_eq_false_iff_ne.mpr k13.1
  simp [sha256_digest, modeKind, kindTokens, List.lookup, k1,
    e2, e3, e4, e5, e6, e7, e8, e9, e10, e11, e12, e13]

/-- Witness for C3: a directory mode gives the `directory` token and the
unrecognized prefix `!` gives the unknown-kind token naming `!`. -/
theorem fileinfo_C3_witness :
    (['-', 'd', 'D', 'b', 'c', 'C', 'l', 'M', 'n', 's', 'P', 'p', '?'] :
      List Char).contains '!' = false
    ∧ sha256_digest (String.mk ('d' :: "rwxr-xr-x".data)) (Except.ok [1, 2]) =
        "directory"
    ∧ sha256_digest (String.mk ('!' :: "rwxr-xr-x".data)) (Except.ok [1, 2]) =
        "Unknown-file-kind(mode-prefix=\x27" ++ String.mk ['!'] ++ "\x27)" := by
  have h := fileinfo_C3 '!' "rwxr-xr-x".data (Except.ok [1, 2]) (by decide)
  exact ⟨by decide, h.1, h.2.2.2.2.2.2.2.2.2.2.2⟩

/-- Claim C4: a recursive walk over a symbolic link that points at a
directory emits exactly one record line — the link's own, carrying the
` -> <target>` suffix — and never descends into the target: the result is
independent of the link's (arbitrary) child list, and the output stream
gains exactly the one line. -/
theorem fileinfo_C4 (ex : Option String) (p : String) (m : Meta) (cok : Bool)
    (cs : List (String × Tree)) (s : WalkState) (st : Stat) (tgt : String)
    (h1 : m.exists_ = true) (h2 : m.statr = Except.ok st)
    (h3 : m.isdir = true) (h4 : m.islink = true)
    (h5 : m.readlink = Except.ok tgt) :
    show_ true ex p (Tree.node m cok cs) s =
      (stat_str p m s).map (fun r => put_fileinfo r.1 r.2)
    ∧ (stat_str p m s).map (fun r => r.2.out) = Except.ok s.out
    ∧ (stat_str p m s).map (fun r => r.2.warn) = Except.ok s.warn
    ∧ (∃ fr, (stat_str p m s).map Prod.fst =
        Except.ok (fr ++ (" -> " ++ tgt))) := by
  obtain ⟨r, hr⟩ := stat_str_ok_stat p m s st h1 h2
  have hk := stat_str_keeps p m s r hr
  refine ⟨show_symlink_dir ex p m cok cs s st h1 h2 h3 h4, ?_, ?_, ?_⟩
  · rw [hr]; simp [Except.map, hk.1]
  · rw [hr]; simp [Except.map, hk.2.1]
  · refine ⟨st.filemode ++ " " ++ toString st.nlink ++ " "
      ++ pyStrOpt (get_xname st.uid m.ownerLookup s.names.unames).1
      ++ "(" ++ toString st.uid ++ "):"
      ++ pyStrOpt (get_xname st.gid m.groupLookup s.names.gnames).1
      ++ "(" ++ toString st.gid ++ ") " ++ toString st.size ++ " "
      ++ ("SHA256:" ++ sha256_digest st.filemode m.content) ++ " "
      ++ as_datetime_style st.mtime_dt ++ " " ++ p, ?_⟩
    simp [stat_str, h1, h2, formatStatDict, get_hash, fi_sha256,
      get_link_symbol, h4, h5, Except.map]

/-- Witness for C4: a concrete symlink-to-directory with a non-empty child
list produces exactly its own record line. -/
theorem fileinfo_C4_witness :
    sampleMetaLink.islink = true
    ∧ show_ true none "/tmp/link"
        (Tree.node sampleMetaLink true [("x", Tree.node sampleMetaDir true [])])
        sampleState =
      (stat_str "/tmp/link" sampleMetaLink sampleState).map
        (fun r => put_fileinfo r.1 r.2) := by
  have h := fileinfo_C4 none "/tmp/link" sampleMetaLink true
    [("x", Tree.node sampleMetaDir true [])] sampleState sampleStatLink
    "/tmp/d" rfl rfl rfl rfl rfl
  exact ⟨rfl, h.1⟩

/-- Claim C5: when enumerating a directory's children raises
`PermissionError`, the walk emits the single `(Skipping children of <dir>)`
line right after the directory's own record and emits nothing for any
would-be child (the child list is arbitrary and unused); when a specific
child's `os.stat` raises `PermissionError`, the walk emits
`(Skipping <child>)` for that child only — none of the child's own data is
emitted — and continues with the remaining siblings. -/
theorem fileinfo_C5 (ex : Option String) (p : String) (m : Meta)
    (cs : List (String × Tree)) (s : WalkState) (st : Stat)
    (n1 : String) (mb : Meta) (cb : Bool) (csb : List (String × Tree))
    (rest : List (String × Tree))
    (h1 : m.exists_ = true) (h2 : m.statr = Except.ok st)
    (h3 : m.isdir = true) (h4 : m.islink = false)
    (hb1 : mb.exists_ = true) (hb2 : mb.statr = Except.error ())
    (hn1 : (excludesListOf ex).contains n1 = false) :
    show_ true ex p (Tree.node m false cs) s =
      (stat_str p m s).map (fun r =>
        put_fileinfo ("(Skipping children of " ++ p ++ ")")
          (put_fileinfo r.1 r.2))
    ∧ show_ true ex p (Tree.node m true ((n1, Tree.node mb cb csb) :: rest)) s =
      (stat_str p m s).map (fun r =>
        showChildren true ex (excludesListOf ex) p rest
          (put_fileinfo ("(Skipping " ++ joinPath p n1 ++ ")")
            (put_fileinfo r.1 r.2))) := by
  refine ⟨show_children_denied ex p m cs s st h1 h2 h3 h4, ?_⟩
  rw [show_dir_enum ex p m _ s st h1 h2 h3 h4]
  obtain ⟨r, hr⟩ := stat_str_ok_stat p m s st h1 h2
  rw [hr]
  simp only [Except.map]
  rw [showChildren_badchild true ex (excludesListOf ex) p n1 mb cb csb rest
    (put_fileinfo r.1 r.2) hn1 hb1 hb2]

/-- Witness for C5: a concrete directory whose enumeration is denied emits
the record line plus the one skip-children line. -/
theorem fileinfo_C5_witness :
    sampleMetaDenied.statr = Except.error ()
    ∧ show_ true none "/tmp/top"
        (Tree.node sampleMetaDir false [("a", Tree.node sampleMetaFile true [])])
        sampleState =
      (stat_str "/tmp/top" sampleMetaDir sampleState).map (fun r =>
        put_fileinfo ("(Skipping children of " ++ "/tmp/top" ++ ")")
          (put_fileinfo r.1 r.2)) := by
  have h := fileinfo_C5 none "/tmp/top" sampleMetaDir
    [("a", Tree.node sampleMetaFile true [])] sampleState sampleStatDir
    "locked" sampleMetaDenied true [] [] rfl rfl rfl rfl rfl rfl rfl
  exact ⟨rfl, h.1⟩

/-- Claim C6 (amended): a cache hit returns the cached name with no
resolver invocation, and the resolver runs at most once per id over a whole
run of queries provided its resolution for that id is non-null; a null
resolution (a group-less object on Windows) is not cached, so it is what
the original at-most-once wording fails on (see the counterexample). -/
theorem fileinfo_C6 (xid : Nat) (n : String) (f : PyLookup)
    (xnames c : List (Nat × String)) (provider : Nat → PyLookup)
    (queries : List Nat)
    (h1 : List.lookup xid xnames = some n)
    (h2 : provider xid ≠ PyLookup.ok none) :
    get_xname xid f xnames = (some n, xnames, 0)
    ∧ xnameCalls provider queries c xid ≤ 1 := by
  exact ⟨by simp [get_xname, h1],
    xnameCalls_at_most_once provider queries c xid h2⟩

/-- Witness for C6: a concrete cached id and a concrete three-query run
with a never-null resolver. -/
theorem fileinfo_C6_witness :
    List.lookup 3 [(3, "root")] = some "root"
    ∧ get_xname 3 PyLookup.keyError [(3, "root")] = (some "root", [(3, "root")], 0)
    ∧ xnameCalls (fun _ => PyLookup.keyError) [3, 3, 3] [] 3 ≤ 1 := by
  have h := fileinfo_C6 3 "root" PyLookup.keyError [(3, "root")] []
    (fun _ => PyLookup.keyError) [3, 3, 3] rfl (by decide)
  exact ⟨rfl, h.1, h.2⟩

/-- Counterexample for C6 as stated: when the resolver yields the Python
value `None` (as `_get_group` does for group-less objects on Windows), the
name is not cached, so an id queried twice invokes the platform lookup
twice — not at most once. -/
theorem fileinfo_C6_counterexample :
    ¬ (xnameCalls (fun _ => PyLookup.ok none) [7, 7] [] 7 ≤ 1) := by decide

/-- Claim C7: walking a root path that does not exist at stat time emits
exactly the literal line `<path>: No such file or directory.` on the data
stream — nothing else for that root, nothing on the side channel — and the
run does not fail (the invisible parent-priming stat emits nothing). -/
theorem fileinfo_C7 (recursive : Bool) (ex : Option String) (p : String)
    (pm m : Meta) (cok : Bool) (cs : List (String × Tree)) (s : WalkState)
    (h1 : m.exists_ = false) (h2 : m.isdir = false)
    (hpm : pm.exists_ = false ∨ ∃ stp, pm.statr = Except.ok stp) :
    (show_all recursive ex [⟨p, pm, Tree.node m cok cs⟩] s).map
        (fun w => (w.out, w.warn))
      = Except.ok (s.out ++ [p ++ ": No such file or directory."], s.warn) := by
  obtain ⟨r, hr⟩ := stat_str_total (if dirname p = "" then "." else dirname p)
    pm { s with to_count := false } hpm
  have hk := stat_str_keeps _ pm _ r hr
  have hd : dir_stat_invisibly p pm { s with to_count := false }
      = Except.ok r.2 := by
    simp [dir_stat_invisibly, hr]
  rw [show_all, hd]
  simp only [show_missing recursive ex p m cok cs { r.2 with to_count := true } h1 h2,
    show_all, Except.map, put_fileinfo]
  simp [hk.1, hk.2.1]

/-- Witness for C7: a concrete missing root emits exactly its
missing-path line. -/
theorem fileinfo_C7_witness :
    sampleMetaMissing.exists_ = false
    ∧ (show_all true none
        [⟨"/tmp/gone", sampleMetaMissing, Tree.node sampleMetaMissing true []⟩]
        sampleState).map (fun w => (w.out, w.warn))
      = Except.ok (sampleState.out ++ ["/tmp/gone" ++ ": No such file or directory."],
          sampleState.warn) := by
  have h := fileinfo_C7 true none "/tmp/gone" sampleMetaMissing sampleMetaMissing
    true [] sampleState rfl rfl (Or.inl rfl)
  exact ⟨rfl, h⟩

/-- Claim C8: a child whose base name is in the excludes list is skipped
entirely — the walk emits a warning on the side channel, no record line for
the child or any of its descendants (the child's subtree is arbitrary and
unused), and the remaining siblings are processed from the warned state;
the warning goes to the warnings stream, not the data stream. -/
theorem fileinfo_C8 (ex : Option String) (p : String) (m : Meta)
    (s : WalkState) (st : Stat) (n1 : String) (t1 : Tree)
    (rest : List (String × Tree)) (msg : String) (w : WalkState)
    (h1 : m.exists_ = true) (h2 : m.statr = Except.ok st)
    (h3 : m.isdir = true) (h4 : m.islink = false)
    (hn1 : (excludesListOf ex).contains n1 = true) :
    show_ true ex p (Tree.node m true ((n1, t1) :: rest)) s =
      (stat_str p m s).map (fun r =>
        showChildren true ex (excludesListOf ex) p rest
          (warn_ ("Skiping sub-directory " ++ joinPath p n1)
            (put_fileinfo r.1 r.2)))
    ∧ (warn_ msg w).out = w.out
    ∧ (warn_ msg w).warn = w.warn ++ ["WARNING: " ++ msg] := by
  refine ⟨?_, rfl, rfl⟩
  rw [show_dir_enum ex p m _ s st h1 h2 h3 h4]
  obtain ⟨r, hr⟩ := stat_str_ok_stat p m s st h1 h2
  rw [hr]
  simp only [Except.map]
  rw [showChildren_excluded true ex (excludesListOf ex) p n1 t1 rest
    (put_fileinfo r.1 r.2) hn1]

/-- Witness for C8: a concrete `.git` child under `-x .git` is skipped with
a warning and its subtree is never entered. -/
theorem fileinfo_C8_witness :
    (excludesListOf (some ".git")).contains ".git" = true
    ∧ show_ true (some ".git") "/tmp/top"
        (Tree.node sampleMetaDir true [(".git", Tree.node sampleMetaDir true [])])
        sampleState =
      (stat_str "/tmp/top" sampleMetaDir sampleState).map (fun r =>
        showChildren true (some ".git") (excludesListOf (some ".git")) "/tmp/top" []
          (warn_ ("Skiping sub-directory " ++ joinPath "/tmp/top" ".git")
            (put_fileinfo r.1 r.2))) := by
  have h := fileinfo_C8 (some ".git") "/tmp/top" sampleMetaDir sampleState
    sampleStatDir ".git" (Tree.node sampleMetaDir true []) [] "m" sampleState
    rfl rfl rfl rfl rfl
  exact ⟨rfl, h.1⟩

/-- Claim C9 (amended): both `(Skipping children of <dir>)` and
`(Skipping <child>)` notices are written through `_put_fileinfo` to the
data output stream — the same stream as the record lines — and the
warnings side channel is left untouched by them; only the excludes warning
uses the side channel. -/
theorem fileinfo_C9 (ex : Option String) (p : String) (m : Meta)
    (cs : List (String × Tree)) (s : WalkState) (st : Stat)
    (n1 : String) (mb : Meta) (cb : Bool) (csb : List (String × Tree))
    (h1 : m.exists_ = true) (h2 : m.statr = Except.ok st)
    (h3 : m.isdir = true) (h4 : m.islink = false)
    (hb1 : mb.exists_ = true) (hb2 : mb.statr = Except.error ())
    (hn1 : (excludesListOf ex).contains n1 = false) :
    (show_ true ex p (Tree.node m false cs) s).map (fun w => (w.out, w.warn))
      = (stat_str p m s).map (fun r =>
          (r.2.out ++ [r.1, "(Skipping children of " ++ p ++ ")"], r.2.warn))
    ∧ (show_ true ex p (Tree.node m true [(n1, Tree.node mb cb csb)]) s).map
        (fun w => (w.out, w.warn))
      = (stat_str p m s).map (fun r =>
          (r.2.out ++ [r.1, "(Skipping " ++ joinPath p n1 ++ ")"], r.2.warn)) := by
  obtain ⟨r, hr⟩ := stat_str_ok_stat p m s st h1 h2
  constructor
  · rw [show_children_denied ex p m cs s st h1 h2 h3 h4, hr]
    simp [Except.map, put_fileinfo]
  · rw [show_dir_enum ex p m _ s st h1 h2 h3 h4, hr]
    simp only [Except.map]
    rw [showChildren_badchild true ex (excludesListOf ex) p n1 mb cb csb []
      (put_fileinfo r.1 r.2) hn1 hb1 hb2]
    rw [showChildren]
    simp [put_fileinfo]

/-- Witness for C9 (amended): a concrete denied directory puts the notice
on the data stream with the side channel unchanged. -/
theorem fileinfo_C9_witness :
    sampleMetaDir.isdir = true
    ∧ (show_ true none "/tmp/top" (Tree.node sampleMetaDir false []) sampleState).map
        (fun w => (w.out, w.warn))
      = (stat_str "/tmp/top" sampleMetaDir sampleState).map (fun r =>
          (r.2.out ++ [r.1, "(Skipping children of " ++ "/tmp/top" ++ ")"],
            r.2.warn)) := by
  have h := fileinfo_C9 none "/tmp/top" sampleMetaDir [] sampleState sampleStatDir
    "locked" sampleMetaDenied true [] rfl rfl rfl rfl rfl rfl rfl
  exact ⟨rfl, h.1⟩

/-- Counterexample for C9 as stated: on a concrete denied directory the
`(Skipping children of d)` notice appears in the data output stream and the
warnings side channel stays empty — the notice is not written to the side
channel as the claim asserts. -/
theorem fileinfo_C9_counterexample :
    (show_ true none "d" (Tree.node sampleMetaDir false []) sampleState).toOption.map
        (fun w => (w.out, w.warn))
      = some (["drwxr-xr-x 2 root(0):root(0) 4096 SHA256:directory 2022/09/20-12:34:56 d",
               "(Skipping children of d)"], ([] : List String)) := by
  rw [show_children_denied none "d" sampleMetaDir [] sampleState sampleStatDir
    rfl rfl rfl rfl]
  decide

/-- Claim C10: with no excludes option the walker stringifies the Python
value `None` and splits it, producing the one-element exclusion list
`["None"]`, so a child whose base name is the literal string `None` is
skipped with a warning and produces no record lines in any recursive walk
run without an excludes setting. -/
theorem fileinfo_C10 (p : String) (m : Meta) (s : WalkState) (st : Stat)
    (t1 : Tree) (rest : List (String × Tree))
    (h1 : m.exists_ = true) (h2 : m.statr = Except.ok st)
    (h3 : m.isdir = true) (h4 : m.islink = false) :
    excludesListOf none = ["None"]
    ∧ show_ true none p (Tree.node m true (("None", t1) :: rest)) s =
      (stat_str p m s).map (fun r =>
        showChildren true none (excludesListOf none) p rest
          (warn_ ("Skiping sub-directory " ++ joinPath p "None")
            (put_fileinfo r.1 r.2))) := by
  refine ⟨rfl, ?_⟩
  rw [show_dir_enum none p m _ s st h1 h2 h3 h4]
  obtain ⟨r, hr⟩ := stat_str_ok_stat p m s st h1 h2
  rw [hr]
  simp only [Except.map]
  rw [showChildren_excluded true none (excludesListOf none) p "None" t1 rest
    (put_fileinfo r.1 r.2) rfl]

/-- Witness for C10: a concrete child literally named `None` is skipped
with a warning when the excludes option is absent. -/
theorem fileinfo_C10_witness :
    sampleMetaDir.isdir = true
    ∧ excludesListOf none = ["None"]
    ∧ show_ true none "/tmp/top"
        (Tree.node sampleMetaDir true [("None", Tree.node sampleMetaDir true [])])
        sampleState =
      (stat_str "/tmp/top" sampleMetaDir sampleState).map (fun r =>
        showChildren true none (excludesListOf none) "/tmp/top" []
          (warn_ ("Skiping sub-directory " ++ joinPath "/tmp/top" "None")
            (put_fileinfo r.1 r.2))) := by
  have h := fileinfo_C10 "/tmp/top" sampleMetaDir sampleState sampleStatDir
    (Tree.node sampleMetaDir true []) [] rfl rfl rfl rfl
  exact ⟨rfl, h.1, h.2⟩

end FileInfo
